import Mathlib

/-!
# Verification of the deterministic ATS scoring engine

Shallow embedding of `resume_screener/agents/ats_scorer.py`
(`ATSScoringAgent.score_resume` and its helper scorers) and
`resume_screener/agents/candidate_ranker.py`
(`CandidateRankingAgent.rank_candidates`).

Conventions of the embedding:
* Python floats are modelled as `ℚ` (all constants in the source are
  exactly representable decimals).
* Python strings are Lean `String`s; `a in b` (substring) is modelled by
  `strContains`; `.lower()` by `strLower`.
* Python sets of lower-cased strings are modelled as deduplicated lists
  (`lowerSet`); all uses in the source are order-independent
  (membership, summation of per-element credits, cardinality).
* `datetime.now()` is modelled by an explicit `(year, month)` parameter
  `now`, and the one effectful step inside `score_resume`
  (`_get_comprehensive_analysis`, a network LLM call) by an
  `Except String DetailedAnalysis` argument; an `Except.error` value
  models an internal exception reaching the top-level handler of
  `score_resume`.
* The `re.search` patterns used by the source are embedded as
  left-to-right scanners; for each pattern the deterministic scanner
  below is extensionally equal to the backtracking regex search
  (justified case-by-case in the comments).
-/

/-! ## String and pattern-matching primitives -/

/-- Numeric value of a list of ASCII digits (most significant first). -/
def natOfDigits (ds : List Char) : Nat :=
  ds.foldl (fun a c => a * 10 + (c.toNat - 48)) 0

/-- Value of Python `float` applied to the text `int "." frac` (either part
may be empty, as the regex group `\d+\.?\d*` allows a trailing dot). -/
def ratOfDigits (int frac : List Char) : ℚ :=
  (natOfDigits int : ℚ) + (natOfDigits frac : ℚ) / (10 ^ frac.length)

/-- Match the regex fragment `(\d+\.?\d*)` anchored at the start of `cs`:
greedy digit run, optionally a dot and a second greedy digit run.  Returns
the numeric value of the group and the remaining characters.  (Shrinking
either digit run or dropping a consumed dot leaves a digit or a dot as the
next character, which can never match the `\s*`/letter continuations used
by the source's patterns, so the greedy parse is the unique viable one.) -/
def matchNumAt (cs : List Char) : Option (ℚ × List Char) :=
  match cs with
  | [] => none
  | c :: _ =>
    if c.isDigit then
      let ds := cs.takeWhile Char.isDigit
      let r1 := cs.dropWhile Char.isDigit
      match r1 with
      | '.' :: r2 => some (ratOfDigits ds (r2.takeWhile Char.isDigit), r2.dropWhile Char.isDigit)
      | _ => some (ratOfDigits ds [], r1)
    else none

/-- Try `(\d+\.?\d*)\s*unit` anchored at the start of `cs` (the source's
units are `year` / `month`; the regexes end in `s?`, which always
matches, so only the literal `unit` needs checking). -/
def numberThenUnitAt (unit : List Char) (cs : List Char) : Option ℚ :=
  match matchNumAt cs with
  | none => none
  | some (v, rest) =>
    if unit.isPrefixOf (rest.dropWhile Char.isWhitespace) then some v else none

/-- `re.search(r'(\d+\.?\d*)\s*years?', s)` (resp. `months?`): scan left to
right for the first position where the pattern matches, returning the
numeric group. -/
def searchNumUnit (unit : List Char) : List Char → Option ℚ
  | [] => none
  | c :: cs =>
    match numberThenUnitAt unit (c :: cs) with
    | some v => some v
    | none => searchNumUnit unit cs

/-- `re.search(r'(\d+\.?\d*)', s)`: first number in the string. -/
def searchNum : List Char → Option ℚ
  | [] => none
  | c :: cs =>
    match matchNumAt (c :: cs) with
    | some (v, _) => some v
    | none => searchNum cs

/-- Try `(\d+\.?\d*)\s*(?:-|to)\s*(\d+\.?\d*)` anchored at the start. -/
def rangeAt (cs : List Char) : Option (ℚ × ℚ) :=
  match matchNumAt cs with
  | none => none
  | some (v1, rest) =>
    let r1 := rest.dropWhile Char.isWhitespace
    let sep : Option (List Char) :=
      match r1 with
      | '-' :: r => some r
      | 't' :: 'o' :: r => some r
      | _ => none
    match sep with
    | none => none
    | some r2 =>
      match matchNumAt (r2.dropWhile Char.isWhitespace) with
      | none => none
      | some (v2, _) => some (v1, v2)

/-- `re.search(r'(\d+\.?\d*)\s*(?:-|to)\s*(\d+\.?\d*)', s)`. -/
def searchRange : List Char → Option (ℚ × ℚ)
  | [] => none
  | c :: cs =>
    match rangeAt (c :: cs) with
    | some p => some p
    | none => searchRange cs

/-- `re.search(r'(\d{4})', s)`: first run of four consecutive digits. -/
def findFourDigits : List Char → Option Nat
  | a :: b :: c :: d :: rest =>
    if a.isDigit && b.isDigit && c.isDigit && d.isDigit then
      some (natOfDigits [a, b, c, d])
    else findFourDigits (b :: c :: d :: rest)
  | _ => none

/-- The month-abbreviation alternation of the source, with its month
numbers (the table in `_calculate_total_experience_years`). -/
def monthAbbrevs : List (List Char × Nat) :=
  [(['j','a','n'], 1), (['f','e','b'], 2), (['m','a','r'], 3), (['a','p','r'], 4),
   (['m','a','y'], 5), (['j','u','n'], 6), (['j','u','l'], 7), (['a','u','g'], 8),
   (['s','e','p'], 9), (['o','c','t'], 10), (['n','o','v'], 11), (['d','e','c'], 12)]

/-- `re.search(r'(jan|feb|...|dec)', s)` on an already lower-cased string:
leftmost occurrence of any of the twelve three-letter abbreviations (at a
given position at most one distinct three-letter literal can match, so the
alternation order is immaterial). -/
def findMonth : List Char → Option Nat
  | [] => none
  | c :: cs =>
    match monthAbbrevs.find? (fun p => p.1.isPrefixOf (c :: cs)) with
    | some p => some p.2
    | none => findMonth cs

/-- `needle` occurs as a contiguous sublist of `hay`. -/
def listInfixCheck (needle : List Char) : List Char → Bool
  | [] => needle.isEmpty
  | c :: cs => needle.isPrefixOf (c :: cs) || listInfixCheck needle cs

/-- Python `needle in hay` for strings (substring containment). -/
def strContains (hay needle : String) : Bool :=
  listInfixCheck needle.data hay.data

/-- Python `s.lower()` (ASCII case folding; all keywords the source
compares against are ASCII).  Defined through `List.map` because
`String.map` is well-founded recursion over byte positions, which the
kernel cannot evaluate. -/
def strLower (s : String) : String :=
  String.mk (s.data.map Char.toLower)

/-- Python `set(s.lower() for s in l)`: lower-case and deduplicate.  All
uses in the source are order-independent, so a deduplicated list is a
faithful model of the set. -/
def lowerSet (l : List String) : List String :=
  (l.map strLower).dedup

/-- Python `" ".join(l)`. -/
def joinSpace (l : List String) : String :=
  String.intercalate " " l

/-- Helper for Python `s.split()`: split on runs of whitespace, dropping
empty words; `cur` holds the (reversed) word currently being read. -/
def splitWsAux (cur : List Char) : List Char → List (List Char)
  | [] => if cur.isEmpty then [] else [cur.reverse]
  | c :: cs =>
    if c.isWhitespace then
      if cur.isEmpty then splitWsAux [] cs else cur.reverse :: splitWsAux [] cs
    else splitWsAux (c :: cur) cs

/-- Python `s.split()` (whitespace tokenisation, no empty tokens). -/
def wordsOf (s : String) : List String :=
  (splitWsAux [] s.data).map (fun w => String.mk w)

/-! ## Data model

Typed counterparts of the dictionaries consumed by the scorer.  A missing
optional string key is the empty string (the source reads them with
`.get(k, "")` and only tests truthiness / searches patterns, for which the
two cases agree); the `workExperience` key's *presence* is significant, so
it is an `Option`. -/

structure ExperienceEntry where
  title : String := ""
  company : String := ""
  description : String := ""
  duration : String := ""
  start_date : String := ""
  end_date : String := ""
deriving DecidableEq

structure EducationEntry where
  degree : String := ""
deriving DecidableEq

structure JobRequirements where
  job_title : String := ""
  required_skills : List String := []
  preferred_skills : List String := []
  years_of_experience : String := ""
  education_requirements : String := ""
  critical_keywords : List String := []
deriving DecidableEq

structure ResumeData where
  skills : List String := []
  summary : String := ""
  experience : List ExperienceEntry := []
  workExperience : Option (List ExperienceEntry) := none
  education : List EducationEntry := []
deriving DecidableEq

/-- Successful payload of `_get_comprehensive_analysis` (an external LLM
collaborator; its value never influences the numeric fields). -/
structure DetailedAnalysis where
  analysis : String := ""
  strengths : List String := []
  improvement_areas : List String := []
deriving DecidableEq

/-- The dictionary returned by `score_resume`.  The fallback branch omits
the `strengths` / `improvement_areas` keys and adds an `error` key, hence
the `Option`s. -/
structure ScoreResult where
  error : Option String
  ats_score : ℚ
  skill_match : ℚ
  experience_match : ℚ
  education_match : ℚ
  keyword_density : ℚ
  title_match : ℚ
  matching_skills : List String
  missing_skills : List String
  detailed_analysis : String
  strengths : Option (List String)
  improvement_areas : Option (List String)
deriving DecidableEq

/-! ## Leaf scorers (`ATSScoringAgent._calculate_*`) -/

/-- `_calculate_skill_match`: per required skill, credit 1 for an exact
set member, else 0.5 if some candidate skill is a super- or sub-string
(the source's inner loop `break`s after the first such candidate, so the
credit is 0.5 at most once, which `List.any` captures), else 0; the result
is `min((credits / |required|) * 100, 100)`, and 100.0 outright when
`required` is empty.  Both arguments are lower-cased deduplicated lists. -/
def calcSkillMatch (required candidate : List String) : ℚ :=
  if required.isEmpty then 100.0
  else
    let credits : ℚ := (required.map (fun req =>
      if req ∈ candidate then (1 : ℚ)
      else if candidate.any (fun c => strContains c req || strContains req c) then 0.5
      else 0)).sum
    min (credits / (required.length : ℚ) * 100.0) 100.0

/-- Per-entry contribution inside `_calculate_total_experience_years`.
`now` is `(datetime.now().year, datetime.now().month)`. -/
def entryYears (now : Nat × Nat) (e : ExperienceEntry) : ℚ :=
  if e.duration ≠ "" then
    let d := (strLower e.duration).data
    let years : ℚ := (searchNumUnit ['y','e','a','r'] d).getD 0
    let months : ℚ :=
      match searchNumUnit ['m','o','n','t','h'] d with
      | some m => m / 12.0
      | none => 0
    years + months
  else if e.start_date = "" then 0
  else
    match findFourDigits e.start_date.data with
    | none => 0
    | some startYear =>
      let endYM : Option (Nat × Nat) :=
        if e.end_date = "" || strContains (strLower e.end_date) "present"
            || strContains (strLower e.end_date) "current" then
          some now
        else
          match findFourDigits e.end_date.data with
          | none => none
          | some endYear => some (endYear, (findMonth (strLower e.end_date).data).getD 6)
      match endYM with
      | none => 0
      | some (endYear, endMonth) =>
        let startMonth := (findMonth (strLower e.start_date).data).getD 6
        let years : ℚ :=
          ((endYear : ℚ) - (startYear : ℚ)) + ((endMonth : ℚ) - (startMonth : ℚ)) / 12.0
        if years > 0 then years else 0

/-- `_calculate_total_experience_years`: running accumulation over the
entries (the source's `total_years += ...` loop). -/
def totalExperienceYears (now : Nat × Nat) (entries : List ExperienceEntry) : ℚ :=
  entries.foldl (fun acc e => acc + entryYears now e) 0

/-- The required-years figure parsed by `_calculate_experience_match`:
first a range `N-M` / `N to M` (midpoint), else the first single number,
else 0; a non-positive figure is then replaced by the 2.0-year default. -/
def requiredYearsOf (reqExpStr : String) : ℚ :=
  let parsed : ℚ :=
    match searchRange reqExpStr.data with
    | some (lo, hi) => (lo + hi) / 2.0
    | none =>
      match searchNum reqExpStr.data with
      | some v => v
      | none => 0
  if parsed ≤ 0 then 2.0 else parsed

/-- `_calculate_experience_match`.  Note the source reads
`resume_data.get("experience", [])` directly here — the `workExperience`
fallback of `score_resume` does not apply. -/
def experienceMatchScore (now : Nat × Nat) (job : JobRequirements) (resume : ResumeData) : ℚ :=
  let requiredYears := requiredYearsOf job.years_of_experience
  let candidateYears := totalExperienceYears now resume.experience
  if candidateYears ≥ requiredYears then 100.0
  else if candidateYears ≤ 0 then 0.0
  else candidateYears / requiredYears * 100.0

/-- The `education_levels` table of `_calculate_education_match`. -/
def educationLevels : List (String × Nat) :=
  [("high school", 1), ("associate", 2), ("diploma", 2), ("bachelor", 3), ("bs", 3),
   ("ba", 3), ("undergraduate", 3), ("master", 4), ("mba", 4), ("graduate", 4),
   ("phd", 5), ("doctorate", 5)]

/-- Highest education level whose keyword occurs as a substring of the
(already lower-cased) text; 0 when none does. -/
def textLevel (text : String) : Nat :=
  educationLevels.foldl (fun acc p => if strContains text p.1 then max acc p.2 else acc) 0

/-- `_calculate_education_match`. -/
def educationMatchScore (job : JobRequirements) (resume : ResumeData) : ℚ :=
  let requiredLevel0 := textLevel (strLower job.education_requirements)
  let requiredLevel := if requiredLevel0 = 0 then 3 else requiredLevel0
  let candidateLevel :=
    resume.education.foldl (fun acc e => max acc (textLevel (strLower e.degree))) 0
  if candidateLevel ≥ requiredLevel then 100.0
  else if candidateLevel = 0 then 0.0
  else (candidateLevel : ℚ) / (requiredLevel : ℚ) * 100.0

/-- The stop-word set of `_calculate_keyword_density`. -/
def commonWords : List String :=
  ["and", "the", "to", "of", "for", "in", "a", "with", "on", "an", "this", "that", "be", "as"]

/-- Keyword universe of `_calculate_keyword_density`: lower-cased union of
required skills, preferred skills and critical keywords, minus stop words
and tokens of length ≤ 2. -/
def keywordUniverse (job : JobRequirements) : List String :=
  (lowerSet (job.required_skills ++ job.preferred_skills ++ job.critical_keywords)).filter
    (fun k => ¬ (k ∈ commonWords) ∧ k.length > 2)

/-- Second phase of `_calculate_keyword_density`: fraction of the keyword
universe occurring (lower-cased) as a substring of the corpus. -/
def kwScoreOverCorpus (job : JobRequirements) (corpus : String) : ℚ :=
  let keywords := keywordUniverse job
  if keywords.isEmpty then 100.0
  else
    let text := strLower corpus
    ((keywords.filter (fun k => strContains text k)).length : ℚ)
      / (keywords.length : ℚ) * 100.0

/-- The `resume_text` accumulation of `_calculate_keyword_density`
(skills joined by spaces, then the summary, then per experience entry its
title, company and description).  Reads `resume.experience` directly —
no `workExperience` fallback. -/
def buildCorpus (resume : ResumeData) : String :=
  resume.experience.foldl
    (fun acc e => acc ++ (" " ++ e.title) ++ (" " ++ e.company) ++ (" " ++ e.description))
    (joinSpace resume.skills ++ (" " ++ resume.summary))

/-- `_calculate_keyword_density`. -/
def keywordDensityScore (job : JobRequirements) (resume : ResumeData) : ℚ :=
  kwScoreOverCorpus job (buildCorpus resume)

/-- `_calculate_title_match`: best word-set Jaccard similarity between the
job title and the titles of the (up to) three most recent entries; neutral
50.0 when the job title or the entry list is empty. -/
def titleMatchScore (jobTitle : String) (experience : List ExperienceEntry) : ℚ :=
  if jobTitle = "" || experience.isEmpty then 50.0
  else
    let jobWords := (wordsOf (strLower jobTitle)).dedup
    (experience.take 3).foldl
      (fun best e =>
        let candWords := (wordsOf (strLower e.title)).dedup
        let unionWords := (jobWords ++ candWords).dedup
        if unionWords.isEmpty then best
        else
          max best
            (((jobWords.filter (fun w => w ∈ candWords)).length : ℚ)
              / (unionWords.length : ℚ) * 100.0))
      0

/-! ## `ATSScoringAgent.score_resume` -/

/-- The dictionary returned by the `except` branch of `score_resume`. -/
def fallbackScore (msg : String) : ScoreResult :=
  { error := some ("Failed to score resume: " ++ msg)
    ats_score := 50.0
    skill_match := 50.0
    experience_match := 50.0
    education_match := 50.0
    keyword_density := 50.0
    title_match := 50.0
    matching_skills := []
    missing_skills := []
    detailed_analysis := "Error analyzing resume"
    strengths := none
    improvement_areas := none }

/-- `score_resume`.  `now` models `datetime.now()`; `analysis` models the
outcome of the one effectful step of the `try` block
(`_get_comprehensive_analysis`): every other step of the block is total on
the typed inputs, so an internal exception reaching the top-level handler
is exactly an `Except.error` here. -/
def scoreResume (now : Nat × Nat) (analysis : Except String DetailedAnalysis)
    (job : JobRequirements) (resume : ResumeData) : ScoreResult :=
  let requiredSkills := lowerSet job.required_skills
  let preferredSkills := lowerSet job.preferred_skills
  let allRequired := (requiredSkills ++ preferredSkills).dedup
  let candidateSkills := lowerSet resume.skills
  let experience :=
    if resume.experience.isEmpty then resume.workExperience.getD resume.experience
    else resume.experience
  let requiredMatch := calcSkillMatch requiredSkills candidateSkills
  let preferredMatch := calcSkillMatch preferredSkills candidateSkills
  let skillMatchScore := requiredMatch * 0.7 + preferredMatch * 0.3
  let experienceScore := experienceMatchScore now job resume
  let educationScore := educationMatchScore job resume
  let keywordScore := keywordDensityScore job resume
  let titleScore := titleMatchScore job.job_title experience
  let atsScore :=
    skillMatchScore * 0.40 + experienceScore * 0.30 + educationScore * 0.15
      + keywordScore * 0.10 + titleScore * 0.05
  match analysis with
  | .error e => fallbackScore e
  | .ok a =>
    { error := none
      ats_score := min atsScore 100.0
      skill_match := skillMatchScore
      experience_match := experienceScore
      education_match := educationScore
      keyword_density := keywordScore
      title_match := titleScore
      matching_skills := candidateSkills.filter (fun s => s ∈ allRequired)
      missing_skills := allRequired.filter (fun s => ¬ s ∈ candidateSkills)
      detailed_analysis := a.analysis
      strengths := some a.strengths
      improvement_areas := some a.improvement_areas }

/-! ## `CandidateRankingAgent.rank_candidates` -/

/-- A candidate record as consumed by `rank_candidates`: the scores read
with `.get(k, default)` are `Option`s (absent key = `none`). -/
structure RankCandidate where
  name : String := ""
  ats_score : Option ℚ := none
  skill_match : Option ℚ := none
  experience_match : Option ℚ := none
  education_match : Option ℚ := none
  authenticity_score : Option ℚ := none
  composite_score : Option ℚ := none
deriving DecidableEq

/-- Round-half-to-even to an integer (the rounding of Python `round`). -/
def roundHalfEven (q : ℚ) : ℤ :=
  let f := ⌊q⌋
  let r := q - (f : ℚ)
  if r < 1 / 2 then f
  else if r > 1 / 2 then f + 1
  else if f % 2 = 0 then f else f + 1

/-- Python `round(q, 2)` (round half to even at two decimals). -/
def round2 (q : ℚ) : ℚ :=
  (roundHalfEven (q * 100) : ℚ) / 100

/-- The per-candidate body of the loop in `rank_candidates`: compute the
composite score and store it on the record. -/
def addComposite (c : RankCandidate) : RankCandidate :=
  let ats := c.ats_score.getD 50.0
  let skill := c.skill_match.getD 50.0
  let exper := c.experience_match.getD 50.0
  let edu := c.education_match.getD 50.0
  let authenticity := c.authenticity_score.getD 0.5
  let factor := 0.8 + authenticity * 0.4
  let composite := (ats * 0.5 + skill * 0.3 + exper * 0.1 + edu * 0.1) * factor
  { c with composite_score := some (min (round2 composite) 100.0) }

/-- The sort key of `rank_candidates`: `x.get("composite_score", 0)`. -/
def compositeKey (c : RankCandidate) : ℚ :=
  c.composite_score.getD 0

/-- Insert `c` (an element occurring *before* every element of the list in
the original order) into a descending-sorted list: `c` goes before the
first element whose key is ≤ its own, so ties keep original order. -/
def insDesc (c : RankCandidate) : List RankCandidate → List RankCandidate
  | [] => [c]
  | x :: xs => if compositeKey x ≤ compositeKey c then c :: x :: xs else x :: insDesc c xs

/-- The stable descending sort by composite score.  Python's
`sorted(candidates, key=..., reverse=True)` is *the* stable descending
sort, which is uniquely determined by its key; it is embedded here as
stable insertion sort. -/
def sortByCompositeDesc : List RankCandidate → List RankCandidate
  | [] => []
  | c :: cs => insDesc c (sortByCompositeDesc cs)

/-- `rank_candidates` (the `ranked_candidates` list it returns; the
LLM-generated `insights` string is outside the numeric core).  An empty
input short-circuits to an empty list. -/
def rankCandidates (candidates : List RankCandidate) : List RankCandidate :=
  if candidates.isEmpty then []
  else sortByCompositeDesc (candidates.map addComposite)

/-! ## Claim-side definitions

These restate claim text verbatim, for comparison against the embedding
of the source; they are *not* translations of the source. -/

/-- Stated from claim C4's words: the required years figure is the
midpoint of a range found in the text, else a single number found there,
else 2.0 — with no further fallback; then 100 / 0 / proportional. -/
def claimedExperienceMatch (now : Nat × Nat) (job : JobRequirements)
    (resume : ResumeData) : ℚ :=
  let requiredYears : ℚ :=
    match searchRange job.years_of_experience.data with
    | some (lo, hi) => (lo + hi) / 2.0
    | none =>
      match searchNum job.years_of_experience.data with
      | some v => v
      | none => 2.0
  let candidateYears := totalExperienceYears now resume.experience
  if candidateYears ≥ requiredYears then 100.0
  else if candidateYears ≤ 0 then 0.0
  else candidateYears / requiredYears * 100.0

/-- Stated from claim C4's words as amended: like
`claimedExperienceMatch`, but a parsed figure ≤ 0 also falls back to the
2.0-year default. -/
def amendedExperienceMatch (now : Nat × Nat) (job : JobRequirements)
    (resume : ResumeData) : ℚ :=
  let parsed : ℚ :=
    match searchRange job.years_of_experience.data with
    | some (lo, hi) => (lo + hi) / 2.0
    | none =>
      match searchNum job.years_of_experience.data with
      | some v => v
      | none => 0
  let requiredYears := if parsed ≤ 0 then 2.0 else parsed
  let candidateYears := totalExperienceYears now resume.experience
  if candidateYears ≥ requiredYears then 100.0
  else if candidateYears ≤ 0 then 0.0
  else candidateYears / requiredYears * 100.0

/-- Stated from claim C5's words (general part): ordinal level table,
required level = max keyword level substring-matched in the lower-cased
requirement text (default 3), candidate level = max level matched across
all lower-cased degree strings (0 if none), then 100 / 0 / proportional. -/
def claimedEducationMatch (job : JobRequirements) (resume : ResumeData) : ℚ :=
  let levelOf : String → Nat := fun text =>
    educationLevels.foldl (fun acc p => if strContains text p.1 then max acc p.2 else acc) 0
  let matched := levelOf (strLower job.education_requirements)
  let requiredLevel := if matched = 0 then 3 else matched
  let candidateLevel :=
    resume.education.foldl (fun acc e => max acc (levelOf (strLower e.degree))) 0
  if candidateLevel ≥ requiredLevel then 100.0
  else if candidateLevel = 0 then 0.0
  else (candidateLevel : ℚ) / (requiredLevel : ℚ) * 100.0

/-- Concrete job for the determinism counterexample: ten years of
experience required. -/
def c9Job : JobRequirements := { years_of_experience := "10" }

/-- Concrete candidate for the determinism counterexample: one ongoing
position, so the parsed duration depends on the current date. -/
def c9Resume : ResumeData :=
  { experience := [{ start_date := "Jan 2020", end_date := "present" }] }

/-- Concrete experience list stored only under `workExperience`. -/
def c10Work : List ExperienceEntry := [{ title := "dev" }]

/-- Concrete job for the `workExperience`-fallback claim. -/
def c10Job : JobRequirements := { job_title := "dev" }

/-- Concrete candidate whose experience entries live only under the
`workExperience` key. -/
def c10Resume : ResumeData :=
  { skills := ["python"], summary := "an engineer", experience := [],
    workExperience := some c10Work }

/-- Concrete test vector for the ranking claims. -/
def c6Candidate : RankCandidate :=
  { name := "a", ats_score := some 80, skill_match := some 60,
    experience_match := some 40, education_match := some 100 }

section
/- Batteries marks the `Rat` field operations `@[irreducible]`; make them
unfoldable in this section so that concrete scores evaluate by `decide`. -/
attribute [local semireducible] Rat.add Rat.sub Rat.mul Rat.inv Rat.ofScientific

/-! ## Helper lemmas -/

theorem foldl_add_map_sum {α : Type} (g : α → ℚ) :
    ∀ (l : List α) (a : ℚ), l.foldl (fun acc e => acc + g e) a = a + (l.map g).sum := by
  intro l
  induction l with
  | nil => simp
  | cons x xs ih => intro a; simp [ih, add_assoc]

theorem mem_insDesc (c a : RankCandidate) :
    ∀ l : List RankCandidate, a ∈ insDesc c l ↔ a = c ∨ a ∈ l := by
  intro l
  induction l with
  | nil => simp [insDesc]
  | cons x xs ih =>
    by_cases h : compositeKey x ≤ compositeKey c
    · simp [insDesc, h]
    · simp only [insDesc, if_neg h, List.mem_cons, ih]
      tauto

theorem pairwise_insDesc (c : RankCandidate) :
    ∀ l : List RankCandidate,
      l.Pairwise (fun a b => compositeKey b ≤ compositeKey a) →
      (insDesc c l).Pairwise (fun a b => compositeKey b ≤ compositeKey a) := by
  intro l
  induction l with
  | nil => intro _; simp [insDesc]
  | cons x xs ih =>
    intro hp
    rw [List.pairwise_cons] at hp
    by_cases h : compositeKey x ≤ compositeKey c
    · rw [insDesc, if_pos h, List.pairwise_cons]
      refine ⟨?_, List.pairwise_cons.mpr hp⟩
      intro b hb
      rcases List.mem_cons.mp hb with hb | hb
      · exact hb ▸ h
      · exact le_trans (hp.1 b hb) h
    · rw [insDesc, if_neg h, List.pairwise_cons]
      refine ⟨?_, ih hp.2⟩
      intro b hb
      rcases (mem_insDesc c b xs).mp hb with hb | hb
      · exact hb ▸ le_of_lt (lt_of_not_le h)
      · exact hp.1 b hb

theorem insDesc_cons_le {c x : RankCandidate} {xs : List RankCandidate}
    (h : compositeKey x ≤ compositeKey c) : insDesc c (x :: xs) = c :: x :: xs := by
  rw [insDesc, if_pos h]

theorem insDesc_cons_gt {c x : RankCandidate} {xs : List RankCandidate}
    (h : ¬ compositeKey x ≤ compositeKey c) : insDesc c (x :: xs) = x :: insDesc c xs := by
  rw [insDesc, if_neg h]

theorem filter_insDesc (c : RankCandidate) (q : ℚ) :
    ∀ l : List RankCandidate,
      (insDesc c l).filter (fun x => compositeKey x = q)
        = if compositeKey c = q then c :: l.filter (fun x => compositeKey x = q)
          else l.filter (fun x => compositeKey x = q) := by
  intro l
  induction l with
  | nil =>
    by_cases hc : compositeKey c = q
    · simp [insDesc, List.filter, hc]
    · simp [insDesc, List.filter, hc]
  | cons x xs ih =>
    by_cases h : compositeKey x ≤ compositeKey c
    · rw [insDesc_cons_le h]
      by_cases hc : compositeKey c = q
      · simp [List.filter, hc]
      · simp [List.filter, hc]
    · have hlt : compositeKey c < compositeKey x := lt_of_not_le h
      rw [insDesc_cons_gt h]
      by_cases hc : compositeKey c = q
      · have hx : ¬ compositeKey x = q := by
          intro hxq
          rw [hc] at hlt
          rw [hxq] at hlt
          exact lt_irrefl q hlt
        rw [if_pos hc] at ih ⊢
        simp [List.filter, hx, ih]
      · by_cases hx : compositeKey x = q
        · rw [if_neg hc] at ih ⊢
          simp [List.filter, hx, ih]
        · rw [if_neg hc] at ih ⊢
          simp [List.filter, hx, ih]

theorem pairwise_sortByCompositeDesc :
    ∀ l : List RankCandidate,
      (sortByCompositeDesc l).Pairwise (fun a b => compositeKey b ≤ compositeKey a) := by
  intro l
  induction l with
  | nil => simp [sortByCompositeDesc]
  | cons x xs ih => exact pairwise_insDesc x (sortByCompositeDesc xs) ih

theorem filter_sortByCompositeDesc (q : ℚ) :
    ∀ l : List RankCandidate,
      (sortByCompositeDesc l).filter (fun x => compositeKey x = q)
        = l.filter (fun x => compositeKey x = q) := by
  intro l
  induction l with
  | nil => rfl
  | cons x xs ih =>
    by_cases hc : compositeKey x = q
    · rw [sortByCompositeDesc, filter_insDesc, if_pos hc, ih]
      simp [List.filter, hc]
    · rw [sortByCompositeDesc, filter_insDesc, if_neg hc, ih]
      simp [List.filter, hc]

theorem mem_sortByCompositeDesc (a : RankCandidate) :
    ∀ l : List RankCandidate, a ∈ sortByCompositeDesc l ↔ a ∈ l := by
  intro l
  induction l with
  | nil => simp [sortByCompositeDesc]
  | cons x xs ih => simp [sortByCompositeDesc, mem_insDesc, ih]

theorem requiredYearsOf_pos (s : String) : 0 < requiredYearsOf s := by
  rw [requiredYearsOf]
  split
  · norm_num
  · rename_i h
    exact lt_of_not_le h

theorem scoreResume_ok_skill_match (now : Nat × Nat) (a : DetailedAnalysis)
    (job : JobRequirements) (resume : ResumeData) :
    (scoreResume now (.ok a) job resume).skill_match
      = calcSkillMatch (lowerSet job.required_skills) (lowerSet resume.skills) * 0.7
        + calcSkillMatch (lowerSet job.preferred_skills) (lowerSet resume.skills) * 0.3 := rfl

theorem scoreResume_ok_experience_match (now : Nat × Nat) (a : DetailedAnalysis)
    (job : JobRequirements) (resume : ResumeData) :
    (scoreResume now (.ok a) job resume).experience_match
      = experienceMatchScore now job resume := rfl

theorem scoreResume_ok_education_match (now : Nat × Nat) (a : DetailedAnalysis)
    (job : JobRequirements) (resume : ResumeData) :
    (scoreResume now (.ok a) job resume).education_match
      = educationMatchScore job resume := rfl

theorem scoreResume_ok_keyword_density (now : Nat × Nat) (a : DetailedAnalysis)
    (job : JobRequirements) (resume : ResumeData) :
    (scoreResume now (.ok a) job resume).keyword_density
      = keywordDensityScore job resume := rfl

theorem scoreResume_ok_title_match (now : Nat × Nat) (a : DetailedAnalysis)
    (job : JobRequirements) (resume : ResumeData) :
    (scoreResume now (.ok a) job resume).title_match
      = titleMatchScore job.job_title
          (if resume.experience.isEmpty then resume.workExperience.getD resume.experience
           else resume.experience) := rfl

theorem scoreResume_ok_ats_score (now : Nat × Nat) (a : DetailedAnalysis)
    (job : JobRequirements) (resume : ResumeData) :
    (scoreResume now (.ok a) job resume).ats_score
      = min ((calcSkillMatch (lowerSet job.required_skills) (lowerSet resume.skills) * 0.7
            + calcSkillMatch (lowerSet job.preferred_skills) (lowerSet resume.skills) * 0.3) * 0.40
          + experienceMatchScore now job resume * 0.30
          + educationMatchScore job resume * 0.15
          + keywordDensityScore job resume * 0.10
          + titleMatchScore job.job_title
              (if resume.experience.isEmpty then resume.workExperience.getD resume.experience
               else resume.experience) * 0.05) 100.0 := rfl

/-! ## Claim theorems -/

/-- C1: when scoring completes without an internal exception (the analysis
step returns `.ok`), `score_resume` returns
`ats_score = min(100, 0.40·skill_match + 0.30·experience_match +
0.15·education_match + 0.10·keyword_density + 0.05·title_match)`, and
`skill_match = 0.7·match_percentage(required, skills) +
0.3·match_percentage(preferred, skills)` over lower-cased skill sets. -/
theorem ats_score_weighted_formula (now : Nat × Nat) (a : DetailedAnalysis)
    (job : JobRequirements) (resume : ResumeData) :
    (scoreResume now (.ok a) job resume).ats_score
      = min 100.0
          (0.40 * (scoreResume now (.ok a) job resume).skill_match
            + 0.30 * (scoreResume now (.ok a) job resume).experience_match
            + 0.15 * (scoreResume now (.ok a) job resume).education_match
            + 0.10 * (scoreResume now (.ok a) job resume).keyword_density
            + 0.05 * (scoreResume now (.ok a) job resume).title_match)
    ∧ (scoreResume now (.ok a) job resume).skill_match
      = 0.7 * calcSkillMatch (lowerSet job.required_skills) (lowerSet resume.skills)
        + 0.3 * calcSkillMatch (lowerSet job.preferred_skills) (lowerSet resume.skills) := by
  constructor
  · rw [scoreResume_ok_ats_score, scoreResume_ok_skill_match, scoreResume_ok_experience_match,
      scoreResume_ok_education_match, scoreResume_ok_keyword_density, scoreResume_ok_title_match,
      min_comm]
    congr 1
    ring
  · rw [scoreResume_ok_skill_match]
    ring

/-- C2: `_calculate_skill_match` returns 100.0 on an empty required set;
otherwise each required skill earns credit 1.0 for an exact member of the
candidate set, else 0.5 for a (one-off) mutual-substring match, else 0,
and the result is `min(100, 100·credits/|required|)`; in particular every
required subset of the candidate set scores 100.0. -/
theorem skill_match_percentage_spec (required candidate : List String) :
    (required = [] → calcSkillMatch required candidate = 100.0)
    ∧ (required ≠ [] →
        calcSkillMatch required candidate
          = min 100.0
              (100.0 * (required.map (fun req =>
                  if req ∈ candidate then (1 : ℚ)
                  else if candidate.any (fun c => strContains c req || strContains req c) then 0.5
                  else 0)).sum / (required.length : ℚ)))
    ∧ (required ⊆ candidate → calcSkillMatch required candidate = 100.0) := by
  refine ⟨?_, ?_, ?_⟩
  · intro h
    subst h
    rfl
  · intro h
    rw [calcSkillMatch, if_neg (by simpa using h), min_comm]
    congr 1
    ring
  · intro hsub
    by_cases h : required = []
    · subst h; rfl
    · have hmap : required.map (fun req =>
          if req ∈ candidate then (1 : ℚ)
          else if candidate.any (fun c => strContains c req || strContains req c) then 0.5
          else 0) = required.map (fun _ => (1 : ℚ)) := by
        apply List.map_congr_left
        intro req hreq
        rw [if_pos (hsub hreq)]
      have hlen : (required.length : ℚ) ≠ 0 := by
        have hl : required.length ≠ 0 := by
          simpa [List.length_eq_zero] using h
        exact_mod_cast hl
      rw [calcSkillMatch, if_neg (by simpa using h), hmap]
      have hsum : (required.map (fun _ => (1 : ℚ))).sum = (required.length : ℚ) := by simp
      rw [hsum]
      show min ((required.length : ℚ) / (required.length : ℚ) * 100.0) 100.0 = 100.0
      rw [div_self hlen, one_mul, min_self]

/-- Witness for C2: the three hypotheses discharged on concrete skill
sets (empty required set; a mixed exact/partial match; a subset). -/
theorem skill_match_percentage_spec_witness :
    calcSkillMatch [] ["python"] = 100.0
    ∧ calcSkillMatch ["python", "sql"] ["python", "postgresql"]
        = min 100.0
            (100.0 * ((["python", "sql"].map (fun req =>
                if req ∈ ["python", "postgresql"] then (1 : ℚ)
                else if (["python", "postgresql"].any
                    (fun c => strContains c req || strContains req c)) then 0.5
                else 0)).sum) / ((["python", "sql"] : List String).length : ℚ))
    ∧ calcSkillMatch ["python"] ["python", "sql"] = 100.0 :=
  ⟨(skill_match_percentage_spec [] ["python"]).1 rfl,
   (skill_match_percentage_spec ["python", "sql"] ["python", "postgresql"]).2.1 (by simp),
   (skill_match_percentage_spec ["python"] ["python", "sql"]).2.2 (by decide)⟩

/-- C3: the total experience figure is the sum of the per-entry
contributions (`entryYears`, the duration-string path or the
start/end-date path with its month defaults, negative contributions
discarded), the computation is total (never raises), and the documented
examples evaluate as specified: a "2 years 6 months" duration gives 2.5,
Jan 2020–Jan 2022 gives 2, Jan 2020–present at (2024, 6) gives
4 + 5/12, and an entry with no parseable start date contributes 0. -/
theorem total_experience_years_spec (now : Nat × Nat) (entries : List ExperienceEntry) :
    totalExperienceYears now entries = (entries.map (entryYears now)).sum
    ∧ totalExperienceYears (2024, 6) [{ duration := "2 years 6 months" }] = 2.5
    ∧ totalExperienceYears (2024, 6)
        [{ start_date := "Jan 2020", end_date := "Jan 2022" }] = 2
    ∧ totalExperienceYears (2024, 6)
        [{ start_date := "Jan 2020", end_date := "present" }] = 4 + 5 / 12
    ∧ totalExperienceYears (2024, 6) [{ start_date := "", end_date := "2022" }] = 0 := by
  refine ⟨?_, by decide, by decide, by decide, by decide⟩
  rw [totalExperienceYears, foldl_add_map_sum, zero_add]

/-- Counterexample to C4 as stated: for `years_of_experience = "0"` a
single leading number (0) is found, so the claim's required-years figure
is 0 and its score for a candidate with no experience is 100 (candidate
years ≥ 0); the source instead replaces the non-positive parsed figure by
the 2.0-year default and scores 0. -/
theorem experience_match_zero_required_counterexample :
    experienceMatchScore (2024, 6) { years_of_experience := "0" } {} = 0
    ∧ claimedExperienceMatch (2024, 6) { years_of_experience := "0" } {} = 100
    ∧ experienceMatchScore (2024, 6) { years_of_experience := "0" } {}
        ≠ claimedExperienceMatch (2024, 6) { years_of_experience := "0" } {} := by
  refine ⟨by decide, by decide, by decide⟩

/-- C4 as amended: the required-years figure is the range midpoint, else
the first single number, with a parsed figure ≤ 0 (and the no-parse case)
falling back to the 2.0-year default; then 100 when candidate years reach
the figure, 0 when candidate years ≤ 0, else proportional. -/
theorem experience_match_amended_spec (now : Nat × Nat) (job : JobRequirements)
    (resume : ResumeData) :
    experienceMatchScore now job resume = amendedExperienceMatch now job resume := rfl

/-- Counterexample to C5's "in particular" instance: for requirement text
"PhD required" and sole degree string "undergraduate" the source scores
80.0, not 60.0 — the keyword "graduate" (level 4) substring-matches
"undergraduate", and the highest matched level wins. -/
theorem education_match_undergraduate_counterexample :
    educationMatchScore { education_requirements := "PhD required" }
        { education := [{ degree := "undergraduate" }] } = 80
    ∧ ¬ (educationMatchScore { education_requirements := "PhD required" }
        { education := [{ degree := "undergraduate" }] } = 60) := by
  refine ⟨by decide, by decide⟩

/-- C5 as amended: the general mechanism is as claimed (ordinal table,
max-matched levels with substring search, default required level 3,
100 / 0 / proportional result), but the quoted instance evaluates to
`100·4/5 = 80.0`, since "undergraduate" also matches the level-4 keyword
"graduate". -/
theorem education_match_spec_amended :
    (∀ (job : JobRequirements) (resume : ResumeData),
      educationMatchScore job resume = claimedEducationMatch job resume)
    ∧ educationMatchScore { education_requirements := "PhD required" }
        { education := [{ degree := "undergraduate" }] } = 100.0 * 4 / 5 := by
  refine ⟨fun job resume => rfl, by decide⟩


/-- C6: every candidate in the ranked output carries
`composite_score = min(100, round(((0.5·ats + 0.3·skill + 0.1·experience
+ 0.1·education) · (0.8 + 0.4·authenticity)), 2))`, the score fields
defaulting to 50.0 and `authenticity_score` to 0.5 when absent. -/
theorem addComposite_composite_score (c : RankCandidate) :
    (addComposite c).composite_score
      = some (min (round2
          ((c.ats_score.getD 50.0 * 0.5 + c.skill_match.getD 50.0 * 0.3
              + c.experience_match.getD 50.0 * 0.1 + c.education_match.getD 50.0 * 0.1)
            * (0.8 + c.authenticity_score.getD 0.5 * 0.4))) 100.0) := rfl

theorem addComposite_ats_score (c : RankCandidate) :
    (addComposite c).ats_score = c.ats_score := rfl

theorem addComposite_skill_match (c : RankCandidate) :
    (addComposite c).skill_match = c.skill_match := rfl

theorem addComposite_experience_match (c : RankCandidate) :
    (addComposite c).experience_match = c.experience_match := rfl

theorem addComposite_education_match (c : RankCandidate) :
    (addComposite c).education_match = c.education_match := rfl

theorem addComposite_authenticity (c : RankCandidate) :
    (addComposite c).authenticity_score = c.authenticity_score := rfl

/-- C6: every candidate in the ranked output carries
`composite_score = min(100, round(((0.5·ats + 0.3·skill + 0.1·experience
+ 0.1·education) · (0.8 + 0.4·authenticity)), 2))`, the score fields
defaulting to 50.0 and `authenticity_score` to 0.5 when absent. -/
theorem composite_score_formula (candidates : List RankCandidate) (c : RankCandidate)
    (hc : c ∈ rankCandidates candidates) :
    c.composite_score
      = some (min 100.0 (round2
          ((0.5 * c.ats_score.getD 50.0 + 0.3 * c.skill_match.getD 50.0
              + 0.1 * c.experience_match.getD 50.0 + 0.1 * c.education_match.getD 50.0)
            * (0.8 + 0.4 * c.authenticity_score.getD 0.5)))) := by
  rw [rankCandidates] at hc
  split at hc
  · simp at hc
  · rw [mem_sortByCompositeDesc] at hc
    obtain ⟨c0, _, rfl⟩ := List.mem_map.mp hc
    rw [addComposite_composite_score, addComposite_ats_score, addComposite_skill_match,
      addComposite_experience_match, addComposite_education_match, addComposite_authenticity,
      min_comm]
    congr 3
    ring

/-- Witness for C6: the membership hypothesis discharged on a concrete
one-candidate batch. -/
theorem composite_score_formula_witness :
    (addComposite c6Candidate).composite_score
      = some (min 100.0 (round2
          ((0.5 * (addComposite c6Candidate).ats_score.getD 50.0
              + 0.3 * (addComposite c6Candidate).skill_match.getD 50.0
              + 0.1 * (addComposite c6Candidate).experience_match.getD 50.0
              + 0.1 * (addComposite c6Candidate).education_match.getD 50.0)
            * (0.8 + 0.4 * (addComposite c6Candidate).authenticity_score.getD 0.5)))) :=
  composite_score_formula [c6Candidate] (addComposite c6Candidate) (by decide)

/-- C7: the ranked list is sorted in descending order of composite score,
and candidates with equal composite score keep the relative order of the
input batch (the scored candidates in input order): the ranking is a
stable descending sort. -/
theorem rank_sorted_and_stable (candidates : List RankCandidate) :
    (rankCandidates candidates).Pairwise
        (fun a b => compositeKey b ≤ compositeKey a)
    ∧ ∀ q : ℚ,
        (rankCandidates candidates).filter (fun c => compositeKey c = q)
          = (candidates.map addComposite).filter (fun c => compositeKey c = q) := by
  constructor
  · rw [rankCandidates]
    split
    · exact List.Pairwise.nil
    · exact pairwise_sortByCompositeDesc (candidates.map addComposite)
  · intro q
    rw [rankCandidates]
    split
    · rename_i h
      rw [List.isEmpty_iff] at h
      subst h
      rfl
    · exact filter_sortByCompositeDesc q (candidates.map addComposite)

/-- C8: when an internal exception occurs during scoring (the effectful
analysis step yields `Except.error`), `score_resume` catches it and
returns the full neutral fallback: every sub-score 50.0 and empty
matching/missing skill lists; being a total function, the embedded
`scoreResume` never propagates a failure. -/
theorem score_exception_fallback (now : Nat × Nat) (msg : String)
    (job : JobRequirements) (resume : ResumeData) :
    (scoreResume now (.error msg) job resume).ats_score = 50.0
    ∧ (scoreResume now (.error msg) job resume).skill_match = 50.0
    ∧ (scoreResume now (.error msg) job resume).experience_match = 50.0
    ∧ (scoreResume now (.error msg) job resume).education_match = 50.0
    ∧ (scoreResume now (.error msg) job resume).keyword_density = 50.0
    ∧ (scoreResume now (.error msg) job resume).title_match = 50.0
    ∧ (scoreResume now (.error msg) job resume).matching_skills = []
    ∧ (scoreResume now (.error msg) job resume).missing_skills = []
    ∧ scoreResume now (.error msg) job resume = fallbackScore msg :=
  ⟨rfl, rfl, rfl, rfl, rfl, rfl, rfl, rfl, rfl⟩


/-- Counterexample to C9 as stated: `score_resume` reads `datetime.now()`
(through `_calculate_total_experience_years` for "present"-dated entries)
and calls a sampled LLM over the network, so its output is not a function
of the job/candidate inputs alone: two calls with identical inputs one
year apart return different `experience_match` values. -/
theorem score_clock_dependence_counterexample :
    (scoreResume (2024, 6) (.ok {}) c9Job c9Resume).experience_match
      ≠ (scoreResume (2025, 6) (.ok {}) c9Job c9Resume).experience_match := by
  decide

/-- C9 as amended: with the ambient state fixed — a fixed current date
and a fixed (successful) analysis-collaborator outcome — scoring is
deterministic, and every numeric sub-score and skill list is moreover
independent of the collaborator's response value. -/
theorem score_fixed_ambient_deterministic (now : Nat × Nat) (a a' : DetailedAnalysis)
    (job : JobRequirements) (resume : ResumeData) :
    (scoreResume now (.ok a) job resume).ats_score
        = (scoreResume now (.ok a') job resume).ats_score
    ∧ (scoreResume now (.ok a) job resume).skill_match
        = (scoreResume now (.ok a') job resume).skill_match
    ∧ (scoreResume now (.ok a) job resume).experience_match
        = (scoreResume now (.ok a') job resume).experience_match
    ∧ (scoreResume now (.ok a) job resume).education_match
        = (scoreResume now (.ok a') job resume).education_match
    ∧ (scoreResume now (.ok a) job resume).keyword_density
        = (scoreResume now (.ok a') job resume).keyword_density
    ∧ (scoreResume now (.ok a) job resume).title_match
        = (scoreResume now (.ok a') job resume).title_match
    ∧ (scoreResume now (.ok a) job resume).matching_skills
        = (scoreResume now (.ok a') job resume).matching_skills
    ∧ (scoreResume now (.ok a) job resume).missing_skills
        = (scoreResume now (.ok a') job resume).missing_skills :=
  ⟨rfl, rfl, rfl, rfl, rfl, rfl, rfl, rfl⟩

theorem experienceMatchScore_nil (now : Nat × Nat) (job : JobRequirements)
    (resume : ResumeData) (h : resume.experience = []) :
    experienceMatchScore now job resume = 0 := by
  have hpos := requiredYearsOf_pos job.years_of_experience
  have h0 : totalExperienceYears now ([] : List ExperienceEntry) = 0 := rfl
  simp only [experienceMatchScore, h, h0]
  rw [if_neg (not_le.mpr hpos), if_pos (le_refl (0 : ℚ))]
  norm_num

theorem buildCorpus_nil (resume : ResumeData) (h : resume.experience = []) :
    buildCorpus resume = joinSpace resume.skills ++ (" " ++ resume.summary) := by
  rw [buildCorpus, h, List.foldl_nil]

/-- C10: when the experience entries are stored only under
`workExperience` (empty `experience`), `score_resume` uses them for title
matching only: `experience_match` is computed over the empty `experience`
list (total years 0, hence score 0, the required-years figure being
always positive), and the keyword-density corpus is built from skills and
summary alone, containing none of those entries' text. -/
theorem work_experience_fallback_scope (now : Nat × Nat) (a : DetailedAnalysis)
    (job : JobRequirements) (resume : ResumeData) (ws : List ExperienceEntry)
    (hexp : resume.experience = []) (hwork : resume.workExperience = some ws) :
    (scoreResume now (.ok a) job resume).title_match = titleMatchScore job.job_title ws
    ∧ (scoreResume now (.ok a) job resume).experience_match = 0
    ∧ (scoreResume now (.ok a) job resume).keyword_density
        = kwScoreOverCorpus job (joinSpace resume.skills ++ (" " ++ resume.summary)) := by
  refine ⟨?_, ?_, ?_⟩
  · rw [scoreResume_ok_title_match, hexp, hwork]
    simp
  · rw [scoreResume_ok_experience_match]
    exact experienceMatchScore_nil now job resume hexp
  · rw [scoreResume_ok_keyword_density, keywordDensityScore, buildCorpus_nil resume hexp]

/-- Witness for C10: the two hypotheses discharged on a candidate whose
entries live only under `workExperience`. -/
theorem work_experience_fallback_scope_witness :
    (scoreResume (2024, 6) (.ok {}) c10Job c10Resume).title_match
        = titleMatchScore c10Job.job_title c10Work
    ∧ (scoreResume (2024, 6) (.ok {}) c10Job c10Resume).experience_match = 0
    ∧ (scoreResume (2024, 6) (.ok {}) c10Job c10Resume).keyword_density
        = kwScoreOverCorpus c10Job (joinSpace c10Resume.skills ++ (" " ++ c10Resume.summary)) :=
  work_experience_fallback_scope (2024, 6) {} c10Job c10Resume c10Work rfl rfl

end
